import Mathlib

/-!
Verification of the RAG question-answering agent (src/).

Shallow embedding of the core data model and operations:
  * `RAGAgentState`, `MAX_ITERATIONS`, `should_retry`   (src/agent/state.py, src/agent/graph.py)
  * node functions `analyze_query`, `retrieve_documents`,
    `generate_answer`, `evaluate_answer`                 (src/agent/nodes.py)
  * the self-evaluation loop of the compiled graph, as a fuel-indexed
    executable function
  * the HTTP handlers `query` and `upload_document`      (src/api/routes.py)

External capabilities (the Ollama model behind the three chains, and the
Chroma vector search) are modelled as explicit function parameters
("oracles"): the code treats them as opaque calls, so every theorem is
universally quantified over them.
-/

namespace RAGQA

/-- A langchain `Document` as used by this repository: `page_content` plus the
two metadata keys the code reads (`metadata.get("source", ...)` and
`metadata.get("page", ...)`), modelled as optional strings. -/
structure Document where
  page_content : String
  metaSource : Option String
  metaPage : Option String
  deriving DecidableEq, Repr

/-- `SearchQueries` (src/chains/query_analyzer.py): structured output of the
query-analysis chain. Pydantic constrains `queries` to 1..5 items; that
validation is modelled in `query_analyzer_invoke` below. -/
structure SearchQueries where
  queries : List String
  intent : String
  deriving DecidableEq, Repr

/-- `EvaluationResult` (src/chains/evaluator.py): structured output of the
evaluator chain. The float `score` is modelled as a rational. -/
structure EvaluationResult where
  is_sufficient : Bool
  score : Rat
  reason : String
  missing_info : String
  deriving DecidableEq, Repr

/-- `RAGAgentState` (src/agent/state.py). `retrieved_documents` is declared
`Annotated[list, operator.add]`, so a node's returned list is appended to the
existing one by the graph's merge step; all other fields are overwritten. -/
structure RAGAgentState where
  query : String
  search_queries : List String
  retrieved_documents : List Document
  answer : String
  is_sufficient : Bool
  evaluation_reason : String
  iteration : Nat
  deriving DecidableEq, Repr

/-- `MAX_ITERATIONS` (src/agent/graph.py line 28). -/
def MAX_ITERATIONS : Nat := 3

/-- `should_retry` (src/agent/graph.py lines 31-48): the conditional-edge
decision run after `evaluate_answer`; `"end"` routes to END (terminate),
`"retry"` routes back to `analyze_query`. -/
def should_retry (state : RAGAgentState) : String :=
  if state.is_sufficient then "end"
  else if MAX_ITERATIONS ≤ state.iteration then "end"
  else "retry"

/-- Python string slicing `s[:n]`, over code points. -/
def pySlice (s : String) (n : Nat) : String := String.mk (s.data.take n)

/-- Python `len(s)`: number of code points. -/
def pyLen (s : String) : Nat := s.data.length

/-- Python `str.lower()`, character-wise (ASCII case folding suffices for the
file extensions it is applied to). -/
def pyLower (s : String) : String := String.mk (s.data.map Char.toLower)

/-- `needle` occurs contiguously inside `hay` (code-point level). -/
def occursIn (needle hay : String) : Prop := needle.data <:+: hay.data

instance (n h : String) : Decidable (occursIn n h) := List.decidableInfix _ _

/-- The question string built inside `analyze_query` (src/agent/nodes.py lines
44-52): on a retry (`iteration > 0`) with a non-empty (truthy)
`evaluation_reason`, the original query is augmented with the stored feedback;
otherwise the original query is passed through unchanged. -/
def analyze_query_question (state : RAGAgentState) : String :=
  if 0 < state.iteration ∧ state.evaluation_reason ≠ "" then
    state.query ++ "\n\n" ++
      "前回の検索では以下が不足していました: " ++ state.evaluation_reason ++ "\n" ++
      "この不足を補う検索クエリを生成してください。"
  else
    state.query

/-- The query-analyzer chain `prompt | structured_llm`
(src/chains/query_analyzer.py): the raw structured payload produced by the
model is validated against the `SearchQueries` schema, whose `queries` field
carries the pydantic constraints `min_length=1, max_length=5`; a payload whose
query count is outside that range is a validation error. -/
def query_analyzer_invoke (raw : List String × String) : Except String SearchQueries :=
  if 1 ≤ raw.1.length ∧ raw.1.length ≤ 5 then
    .ok ⟨raw.1, raw.2⟩
  else
    .error "ValidationError: queries must have between 1 and 5 items"

/-- Node `analyze_query` (src/agent/nodes.py lines 38-59). `llm` is the opaque
generation capability, giving the raw structured payload returned for a given
prompt. The graph merges the returned `search_queries` by overwrite; a schema
validation failure propagates as an error (there is no handler in the node). -/
def analyze_query (llm : String → List String × String) (state : RAGAgentState) :
    Except String RAGAgentState :=
  match query_analyzer_invoke (llm (analyze_query_question state)) with
  | .error e => .error e
  | .ok result => .ok { state with search_queries := result.queries }

/-- The dedup loop of `retrieve_documents` (src/agent/nodes.py lines 78-83)
and, with a different key, of the `query` route (src/api/routes.py lines
61-77): walk the list keeping a `seen` set of keys, and keep an element iff
its key has not been seen before. -/
def dedupBy (key : Document → String) : List Document → List String → List Document
  | [], _ => []
  | doc :: rest, seen =>
    if seen.contains (key doc) then dedupBy key rest seen
    else doc :: dedupBy key rest (key doc :: seen)

/-- Specification-side dedup, following the spec's words: keep each distinct
key's first occurrence (earliest position), dropping all later duplicates. -/
def keepFirstsBy (key : Document → String) : List Document → List Document
  | [] => []
  | doc :: rest =>
    doc :: keepFirstsBy key (rest.filter (fun d => key d != key doc))
termination_by l => l.length
decreasing_by
  simp only [List.length_cons]
  exact Nat.lt_succ_of_le (List.length_filter_le _ _)

/-- The search loop of `retrieve_documents` (src/agent/nodes.py lines 69-74):
for each query in order, call `similarity_search(query, k=3)` and extend the
accumulated list; also records the `(query, k)` calls issued, in order. -/
def retrieveLoop (search : String → Nat → List Document) :
    List String → List Document × List (String × Nat)
  | [] => ([], [])
  | q :: rest =>
    let docs := search q 3
    let r := retrieveLoop search rest
    (docs ++ r.1, (q, 3) :: r.2)

/-- Node `retrieve_documents` (src/agent/nodes.py lines 62-87) combined with
the graph's merge step: the deduplicated result of this call is appended to
the existing `retrieved_documents` (`operator.add` annotation,
src/agent/state.py line 42). Also returns the search calls issued. -/
def retrieve_documents_traced (search : String → Nat → List Document)
    (state : RAGAgentState) : RAGAgentState × List (String × Nat) :=
  let r := retrieveLoop search state.search_queries
  let unique_documents := dedupBy (fun d => d.page_content) r.1 []
  ({ state with retrieved_documents := state.retrieved_documents ++ unique_documents },
   r.2)

def retrieve_documents (search : String → Nat → List Document)
    (state : RAGAgentState) : RAGAgentState :=
  (retrieve_documents_traced search state).1

/-- The per-document source line rendered by `format_documents`
(src/chains/answer_generator.py lines 26-31). -/
def source_info (doc : Document) : String :=
  let source := doc.metaSource.getD "不明"
  let page := doc.metaPage.getD ""
  if page ≠ "" then "出典: " ++ source ++ " (p." ++ page ++ ")"
  else "出典: " ++ source

/-- `format_documents` (src/chains/answer_generator.py lines 17-37): the
numbered context block over the whole accumulated document list, numbering
from 1 in list order. -/
def format_documents (documents : List Document) : String :=
  String.intercalate "\n\n---\n\n"
    ((List.enumFrom 1 documents).map
      (fun p => "[文書" ++ toString p.1 ++ "] " ++ source_info p.2 ++ "\n" ++
        p.2.page_content))

/-- Node `generate_answer` (src/agent/nodes.py lines 90-108). `gen` is the
opaque answer-generation chain, from question and formatted context to the
answer string; the graph merges `answer` by overwrite. -/
def generate_answer (gen : String → String → String) (state : RAGAgentState) :
    RAGAgentState :=
  { state with answer := gen state.query (format_documents state.retrieved_documents) }

/-- Node `evaluate_answer` (src/agent/nodes.py lines 111-130). `ev` is the
opaque evaluator chain, applied to the original query and the current answer.
The node stores `is_sufficient` and `evaluation_reason := result.reason` and
increments `iteration` by exactly 1; `result.missing_info` is not stored. -/
def evaluate_answer (ev : String → String → EvaluationResult) (state : RAGAgentState) :
    RAGAgentState :=
  let result := ev state.query state.answer
  { state with
      is_sufficient := result.is_sufficient,
      evaluation_reason := result.reason,
      iteration := state.iteration + 1 }

/-- The opaque external capabilities reached through the three chains and the
vector store. -/
structure Oracles where
  llm : String → List String × String
  gen : String → String → String
  ev : String → String → EvaluationResult
  search : String → Nat → List Document

/-- One full pass of the compiled graph (src/agent/graph.py lines 93-95):
analyze_query → retrieve_documents → generate_answer → evaluate_answer. -/
def runPass (o : Oracles) (state : RAGAgentState) :
    Except String (RAGAgentState × List (String × Nat)) :=
  match analyze_query o.llm state with
  | .error e => .error e
  | .ok s1 =>
    let r := retrieve_documents_traced o.search s1
    .ok (evaluate_answer o.ev (generate_answer o.gen r.1), r.2)

/-- The observable outcome of a full run: final state, number of full passes
executed, and the search calls issued (query text with its `k`). -/
structure RunTrace where
  final : RAGAgentState
  passes : Nat
  calls : List (String × Nat)
  deriving DecidableEq, Repr

/-- The self-evaluation loop of the compiled graph (src/agent/graph.py lines
101-108): after each pass, `should_retry` routes back to `analyze_query` on
`"retry"` and to END otherwise. `fuel` bounds the recursion so the function is
total; `none` means the fuel ran out before the loop terminated (theorem C2
shows `MAX_ITERATIONS` fuel always suffices from a fresh state). -/
def runLoopFuel (o : Oracles) : Nat → RAGAgentState → Option (Except String RunTrace)
  | 0, _ => none
  | fuel + 1, state =>
    match runPass o state with
    | .error e => some (.error e)
    | .ok (s1, calls) =>
      if should_retry s1 = "retry" then
        match runLoopFuel o fuel s1 with
        | none => none
        | some (.error e) => some (.error e)
        | some (.ok t) => some (.ok ⟨t.final, t.passes + 1, calls ++ t.calls⟩)
      else
        some (.ok ⟨s1, 1, calls⟩)

/-- `QueryRequest` (src/api/schemas.py lines 12-27): `question` plus a `top_k`
field (default 5); the route handler never reads `top_k`. -/
structure QueryRequest where
  question : String
  top_k : Nat := 5
  deriving DecidableEq, Repr

/-- `SourceDocument` (src/api/schemas.py lines 30-35). -/
structure SourceDocument where
  content : String
  source : String
  page : String
  deriving DecidableEq, Repr

/-- The content truncation of the `query` route (src/api/routes.py lines
71-73): `page_content[:200] + "..."` when longer than 200 code points,
unchanged otherwise. -/
def truncate_content (content : String) : String :=
  if 200 < pyLen content then pySlice content 200 ++ "..." else content

/-- One response source entry as built by the `query` route
(src/api/routes.py lines 68-77). -/
def mkSourceDocument (doc : Document) : SourceDocument :=
  { content := truncate_content doc.page_content,
    source := doc.metaSource.getD "不明",
    page := doc.metaPage.getD "" }

/-- The sources-assembly loop of the `query` route (src/api/routes.py lines
61-77): dedup by the `source` metadata key (defaulting to "不明"), keeping
first-seen order. -/
def build_sources : List Document → List String → List SourceDocument
  | [], _ => []
  | doc :: rest, seen =>
    let source_key := doc.metaSource.getD "不明"
    if seen.contains source_key then build_sources rest seen
    else mkSourceDocument doc :: build_sources rest (source_key :: seen)

/-- `QueryResponse` (src/api/schemas.py lines 38-51). -/
structure QueryResponse where
  answer : String
  sources : List SourceDocument
  is_sufficient : Bool
  iterations : Nat
  deriving DecidableEq, Repr

/-- The initial state constructed by the `query` route (src/api/routes.py
lines 50-58): only `question` from the request is used. -/
def initial_state (question : String) : RAGAgentState :=
  ⟨question, [], [], "", false, "", 0⟩

/-- The `POST /query` handler (src/api/routes.py lines 31-84): build the
initial state from the request's `question` (the request's `top_k` is never
read), run the agent, and assemble the response. The loop is run with
`MAX_ITERATIONS` fuel, which theorem C2 shows is always sufficient. -/
def query (o : Oracles) (request : QueryRequest) : Option (Except String QueryResponse) :=
  match runLoopFuel o MAX_ITERATIONS (initial_state request.question) with
  | none => none
  | some (.error e) => some (.error e)
  | some (.ok t) =>
    some (.ok ⟨t.final.answer, build_sources t.final.retrieved_documents [],
               t.final.is_sufficient, t.final.iteration⟩)

/-- The sequence of search-capability calls a `query` request gives rise to. -/
def run_search_calls (o : Oracles) (request : QueryRequest) :
    Option (Except String (List (String × Nat))) :=
  match runLoopFuel o MAX_ITERATIONS (initial_state request.question) with
  | none => none
  | some (.error e) => some (.error e)
  | some (.ok t) => some (.ok t.calls)

/-- Final path component (text after the last '/'), the `name` that `pathlib`
computes for an ordinary file path. -/
def pathFinalComponent (p : String) : String :=
  String.mk ((p.data.reverse.takeWhile (fun c => c != '/')).reverse)

/-- `pathlib.Path(p).suffix`: the extension of the final component, i.e. the
part of the name from its last dot onward, provided that dot is neither the
first nor the last character of the name; empty otherwise. -/
def pathSuffix (p : String) : String :=
  let name := (pathFinalComponent p).data
  match name.reverse.findIdx? (fun c => c == '.') with
  | none => ""
  | some j =>
    if 0 < j ∧ j + 1 < name.length then String.mk ((name.reverse.take (j + 1)).reverse)
    else ""

/-- The accepted upload extensions (src/api/routes.py line 104). -/
def allowed_suffixes : List String := [".pdf", ".md", ".txt"]

/-- A FastAPI `HTTPException` as raised by the handlers. -/
structure HTTPException where
  status_code : Nat
  detail : String
  deriving DecidableEq, Repr

/-- `UploadResponse` (src/api/schemas.py lines 56-60). -/
structure UploadResponse where
  message : String
  document_count : Nat
  deriving DecidableEq, Repr

/-- The observable ingestion side effects of the upload handler: loading the
saved file, chunking the documents, and embedding/adding to the vector
store. -/
inductive IngestEffect where
  | load
  | chunk
  | embed
  deriving DecidableEq, Repr

/-- The `POST /upload` handler (src/api/routes.py lines 87-141). `load_pdf`,
`load_markdown` and `split_documents` are the opaque ingestion collaborators,
as functions of the uploaded bytes (`content`); the returned effect list
records which of them ran, in order. The handler raises HTTP 400 on an
extension outside `allowed_suffixes` before any of them runs. -/
def upload_document (load_pdf load_markdown : String → List Document)
    (split_documents : List Document → List Document)
    (filename : Option String) (content : String) :
    Except HTTPException UploadResponse × List IngestEffect :=
  let suffix := pyLower (pathSuffix (filename.getD ""))
  if allowed_suffixes.contains suffix then
    let documents := if suffix = ".pdf" then load_pdf content else load_markdown content
    let chunks := split_documents documents
    (.ok ⟨(match filename with | some n => n | none => "None") ++ " を正常に処理しました",
          chunks.length⟩,
     [.load, .chunk, .embed])
  else
    (.error ⟨400,
       "未対応のファイル形式: " ++ suffix ++ "。PDF, Markdown, テキストに対応しています。"⟩,
     [])

end RAGQA

namespace RAGQA

/-! ### Helper lemmas: deduplication -/

theorem dedupBy_eq_keepFirstsBy_filter (key : Document → String) :
    ∀ (l : List Document) (seen : List String),
      dedupBy key l seen =
        keepFirstsBy key (l.filter (fun d => !seen.contains (key d))) := by
  intro l
  induction l with
  | nil => intro seen; simp [dedupBy, keepFirstsBy]
  | cons doc rest ih =>
    intro seen
    cases h : seen.contains (key doc) with
    | true =>
      have hm : key doc ∈ seen := by simpa using h
      simp [dedupBy, ih, List.filter_cons, hm]
    | false =>
      simp only [dedupBy, h, Bool.false_eq_true, if_false, List.filter_cons, Bool.not_false,
        if_true, keepFirstsBy, ih]
      congr 1
      rw [List.filter_filter]
      congr 1
      apply List.filter_congr
      intro a _
      by_cases hk : key a = key doc <;> simp [List.contains_cons, Bool.not_or, bne, hk]

theorem dedupBy_eq_keepFirstsBy (key : Document → String) (l : List Document) :
    dedupBy key l [] = keepFirstsBy key l := by
  rw [dedupBy_eq_keepFirstsBy_filter]
  simp

theorem keepFirstsBy_sublist (key : Document → String) :
    ∀ l : List Document, (keepFirstsBy key l).Sublist l := by
  intro l
  induction l using keepFirstsBy.induct key with
  | case1 => simp [keepFirstsBy]
  | case2 doc rest ih =>
    rw [keepFirstsBy]
    exact (ih.trans (List.filter_sublist rest)).cons₂ doc

theorem keepFirstsBy_pairwise (key : Document → String) :
    ∀ l : List Document, (keepFirstsBy key l).Pairwise (fun a b => key a ≠ key b) := by
  intro l
  induction l using keepFirstsBy.induct key with
  | case1 => simp [keepFirstsBy]
  | case2 doc rest ih =>
    rw [keepFirstsBy]
    refine List.Pairwise.cons (fun b hb => ?_) ih
    have hbf := (keepFirstsBy_sublist key _).subset hb
    have := List.of_mem_filter hbf
    simp only [bne_iff_ne, ne_eq] at this
    exact fun hk => this (hk ▸ rfl)

theorem keepFirstsBy_covers (key : Document → String) :
    ∀ (l : List Document) (d : Document), d ∈ l →
      ∃ d2 ∈ keepFirstsBy key l, key d2 = key d := by
  intro l
  induction l using keepFirstsBy.induct key with
  | case1 => intro d hd; cases hd
  | case2 doc rest ih =>
    intro d hd
    rw [keepFirstsBy]
    rcases List.mem_cons.mp hd with h | h
    · exact ⟨doc, List.mem_cons_self _ _, by rw [h]⟩
    · by_cases hk : key d = key doc
      · exact ⟨doc, List.mem_cons_self _ _, hk.symm⟩
      · have hdf : d ∈ rest.filter (fun d2 => key d2 != key doc) := by
          apply List.mem_filter.mpr
          exact ⟨h, by simp [bne_iff_ne, hk]⟩
        obtain ⟨d2, hd2, hkey⟩ := ih d hdf
        exact ⟨d2, List.mem_cons_of_mem _ hd2, hkey⟩

/-! ### Helper lemmas: nodes and loop -/

theorem analyze_query_ok_fields (llm : String → List String × String)
    (s s' : RAGAgentState) (h : analyze_query llm s = .ok s') :
    s'.query = s.query ∧ s'.iteration = s.iteration ∧
    s'.retrieved_documents = s.retrieved_documents ∧ s'.answer = s.answer ∧
    s'.is_sufficient = s.is_sufficient ∧ s'.evaluation_reason = s.evaluation_reason ∧
    s'.search_queries = (llm (analyze_query_question s)).1 := by
  unfold analyze_query at h
  cases hqa : query_analyzer_invoke (llm (analyze_query_question s)) with
  | error e => rw [hqa] at h; cases h
  | ok result =>
    rw [hqa] at h
    injection h with h
    subst h
    unfold query_analyzer_invoke at hqa
    split at hqa
    · injection hqa with hqa
      subst hqa
      simp
    · cases hqa

theorem analyze_query_error_of_invalid (llm : String → List String × String)
    (s : RAGAgentState)
    (h : ¬ (1 ≤ (llm (analyze_query_question s)).1.length ∧
            (llm (analyze_query_question s)).1.length ≤ 5)) :
    analyze_query llm s =
      .error "ValidationError: queries must have between 1 and 5 items" := by
  unfold analyze_query
  have hv : query_analyzer_invoke (llm (analyze_query_question s)) =
      .error "ValidationError: queries must have between 1 and 5 items" := by
    unfold query_analyzer_invoke
    rw [if_neg h]
  rw [hv]

theorem retrieve_documents_traced_fields (search : String → Nat → List Document)
    (s : RAGAgentState) :
    (retrieve_documents_traced search s).1.query = s.query ∧
    (retrieve_documents_traced search s).1.iteration = s.iteration ∧
    (retrieve_documents_traced search s).1.retrieved_documents =
      s.retrieved_documents ++
        dedupBy (fun d => d.page_content) (retrieveLoop search s.search_queries).1 [] ∧
    (retrieve_documents_traced search s).2 = (retrieveLoop search s.search_queries).2 := by
  simp [retrieve_documents_traced]

theorem runPass_ok_fields (o : Oracles) (s s' : RAGAgentState) (cs : List (String × Nat))
    (h : runPass o s = .ok (s', cs)) :
    s'.iteration = s.iteration + 1 ∧ s'.query = s.query ∧
    s.retrieved_documents <+: s'.retrieved_documents := by
  unfold runPass at h
  cases ha : analyze_query o.llm s with
  | error e => rw [ha] at h; cases h
  | ok s1 =>
    rw [ha] at h
    injection h with h
    obtain ⟨hq, hi, hd, _, _, _, _⟩ := analyze_query_ok_fields o.llm s s1 ha
    have hs' : s' = evaluate_answer o.ev
        (generate_answer o.gen (retrieve_documents_traced o.search s1).1) := by
      have := congrArg Prod.fst h
      simpa using this.symm
    subst hs'
    refine ⟨?_, ?_, ?_⟩
    · simp [evaluate_answer, generate_answer, retrieve_documents_traced, hi]
    · simp [evaluate_answer, generate_answer, retrieve_documents_traced, hq]
    · simp only [evaluate_answer, generate_answer, retrieve_documents_traced]
      rw [hd]
      exact List.prefix_append _ _

theorem should_retry_retry_iff (s : RAGAgentState) :
    should_retry s = "retry" ↔ (s.is_sufficient = false ∧ s.iteration < MAX_ITERATIONS) := by
  cases hs : s.is_sufficient with
  | true =>
    simp only [should_retry, hs, if_true]
    constructor
    · intro h; exact absurd h (by decide)
    · rintro ⟨h, _⟩; cases h
  | false =>
    simp only [should_retry, hs, Bool.false_eq_true, if_false]
    by_cases h2 : MAX_ITERATIONS ≤ s.iteration
    · rw [if_pos h2]
      constructor
      · intro h; exact absurd h (by decide)
      · rintro ⟨_, hlt⟩; omega
    · rw [if_neg h2]
      constructor
      · intro _; exact ⟨trivial, by omega⟩
      · intro _; rfl

theorem runLoopFuel_isSome (o : Oracles) :
    ∀ (fuel : Nat) (s : RAGAgentState), 1 ≤ fuel →
      MAX_ITERATIONS - s.iteration ≤ fuel → (runLoopFuel o fuel s).isSome := by
  intro fuel
  induction fuel with
  | zero => intro s h1 _; omega
  | succ n ih =>
    intro s _ h2
    rw [runLoopFuel]
    cases hp : runPass o s with
    | error e => simp
    | ok pr =>
      obtain ⟨s1, calls⟩ := pr
      by_cases hr : should_retry s1 = "retry"
      · have hiter : s1.iteration = s.iteration + 1 := (runPass_ok_fields o s s1 calls hp).1
        have hlt : s1.iteration < MAX_ITERATIONS := ((should_retry_retry_iff s1).mp hr).2
        have hMAX : MAX_ITERATIONS = 3 := rfl
        have h1n : 1 ≤ n := by omega
        have h2n : MAX_ITERATIONS - s1.iteration ≤ n := by omega
        have hsome := ih s1 h1n h2n
        simp only [hr, if_true]
        cases hq : runLoopFuel o n s1 with
        | none => rw [hq] at hsome; simp at hsome
        | some r => cases r <;> simp
      · simp [hr]

theorem runLoopFuel_ok_spec (o : Oracles) :
    ∀ (fuel : Nat) (s : RAGAgentState) (t : RunTrace),
      runLoopFuel o fuel s = some (.ok t) →
      t.final.iteration = s.iteration + t.passes ∧ 1 ≤ t.passes ∧
      (t.passes = 1 ∨ s.iteration + t.passes ≤ MAX_ITERATIONS) ∧
      t.final.query = s.query := by
  intro fuel
  induction fuel with
  | zero => intro s t h; cases h
  | succ n ih =>
    intro s t h
    rw [runLoopFuel] at h
    cases hp : runPass o s with
    | error e => rw [hp] at h; cases h
    | ok pr =>
      obtain ⟨s1, calls⟩ := pr
      rw [hp] at h
      obtain ⟨hiter, hqry, _⟩ := runPass_ok_fields o s s1 calls hp
      by_cases hr : should_retry s1 = "retry"
      · simp only [hr, if_true] at h
        cases hq : runLoopFuel o n s1 with
        | none => rw [hq] at h; cases h
        | some r =>
          rw [hq] at h
          cases r with
          | error e => cases h
          | ok t1 =>
            injection h with h
            injection h with h
            subst h
            obtain ⟨ih1, ih2, ih3, ih4⟩ := ih s1 t1 hq
            have hlt : s1.iteration < MAX_ITERATIONS := ((should_retry_retry_iff s1).mp hr).2
            have hM : MAX_ITERATIONS = 3 := rfl
            refine ⟨?_, ?_, ?_, ?_⟩
            · show t1.final.iteration = s.iteration + (t1.passes + 1)
              omega
            · show 1 ≤ t1.passes + 1
              omega
            · right
              show s.iteration + (t1.passes + 1) ≤ MAX_ITERATIONS
              rcases ih3 with h1 | h1 <;> omega
            · show t1.final.query = s.query
              rw [ih4, hqry]
      · simp only [hr, if_false] at h
        injection h with h
        injection h with h
        subst h
        exact ⟨hiter, le_refl 1, Or.inl rfl, hqry⟩

theorem retrieveLoop_fst_flatMap (search : String → Nat → List Document) :
    ∀ qs : List String, (retrieveLoop search qs).1 = qs.flatMap (fun q => search q 3) := by
  intro qs
  induction qs with
  | nil => simp [retrieveLoop]
  | cons q rest ih => simp [retrieveLoop, ih]

theorem retrieveLoop_calls_k (search : String → Nat → List Document) :
    ∀ qs : List String, ∀ c ∈ (retrieveLoop search qs).2, c.2 = 3 := by
  intro qs
  induction qs with
  | nil => intro c hc; simp [retrieveLoop] at hc
  | cons q rest ih =>
    intro c hc
    simp only [retrieveLoop] at hc
    rcases List.mem_cons.mp hc with h | h
    · rw [h]
    · exact ih c h

theorem runPass_ok_calls (o : Oracles) (s s' : RAGAgentState) (cs : List (String × Nat))
    (h : runPass o s = .ok (s', cs)) : ∀ c ∈ cs, c.2 = 3 := by
  unfold runPass at h
  cases ha : analyze_query o.llm s with
  | error e => rw [ha] at h; cases h
  | ok s1 =>
    rw [ha] at h
    injection h with h
    have hcs : cs = (retrieveLoop o.search s1.search_queries).2 := by
      have := congrArg Prod.snd h
      simpa [retrieve_documents_traced] using this.symm
    intro c hc
    rw [hcs] at hc
    exact retrieveLoop_calls_k o.search _ c hc

theorem runLoopFuel_ok_calls (o : Oracles) :
    ∀ (fuel : Nat) (s : RAGAgentState) (t : RunTrace),
      runLoopFuel o fuel s = some (.ok t) → ∀ c ∈ t.calls, c.2 = 3 := by
  intro fuel
  induction fuel with
  | zero => intro s t h; cases h
  | succ n ih =>
    intro s t h
    rw [runLoopFuel] at h
    cases hp : runPass o s with
    | error e => rw [hp] at h; cases h
    | ok pr =>
      obtain ⟨s1, calls⟩ := pr
      rw [hp] at h
      by_cases hr : should_retry s1 = "retry"
      · simp only [hr, if_true] at h
        cases hq : runLoopFuel o n s1 with
        | none => rw [hq] at h; cases h
        | some r =>
          rw [hq] at h
          cases r with
          | error e => cases h
          | ok t1 =>
            injection h with h
            injection h with h
            subst h
            intro c hc
            rcases List.mem_append.mp hc with hm | hm
            · exact runPass_ok_calls o s s1 calls hp c hm
            · exact ih s1 t1 hq c hm
      · simp only [hr, if_false] at h
        injection h with h
        injection h with h
        subst h
        intro c hc
        exact runPass_ok_calls o s s1 calls hp c hc

theorem build_sources_eq_map (l : List Document) :
    ∀ seen : List String,
      build_sources l seen =
        (dedupBy (fun d => d.metaSource.getD "不明") l seen).map mkSourceDocument := by
  induction l with
  | nil => intro seen; simp [build_sources, dedupBy]
  | cons doc rest ih =>
    intro seen
    by_cases h : doc.metaSource.getD "不明" ∈ seen <;>
      simp [build_sources, dedupBy, h, ih]

/-- C1: the loop decision terminates (`"end"`) whenever `is_sufficient` is
true, terminates whenever `iteration >= MAX_ITERATIONS` (= 3) regardless of
`is_sufficient`, and retries in every other case. -/
theorem C1_should_retry_decision (s : RAGAgentState) :
    (s.is_sufficient = true → should_retry s = "end") ∧
    (MAX_ITERATIONS ≤ s.iteration → should_retry s = "end") ∧
    (s.is_sufficient = false → s.iteration < MAX_ITERATIONS → should_retry s = "retry") := by
  refine ⟨fun h => ?_, fun h => ?_, fun h1 h2 => ?_⟩ <;>
    simp_all [should_retry, MAX_ITERATIONS, Nat.not_le_of_lt]

/-- Witness for C1 at the concrete states of spec §8 scenarios A-D. -/
theorem C1_should_retry_decision_witness :
    should_retry ⟨"q", [], [], "a", true, "r", 1⟩ = "end" ∧
    should_retry ⟨"q", [], [], "a", false, "r", 3⟩ = "end" ∧
    should_retry ⟨"q", [], [], "a", false, "r", 1⟩ = "retry" := by
  refine ⟨(C1_should_retry_decision _).1 rfl,
          (C1_should_retry_decision _).2.1 (by decide),
          (C1_should_retry_decision _).2.2 rfl (by decide)⟩

/-- C2: from a fresh state (`iteration = 0`) the loop always halts within
`MAX_ITERATIONS` (= 3) full passes, for every behavior of the oracles (in
particular when the evaluator returns `is_sufficient = false` on every pass):
`MAX_ITERATIONS` fuel is never exhausted; every successful run, at any fuel,
makes between 1 and `MAX_ITERATIONS` passes and ends with `iteration` equal to
the number of passes; the evaluation step increments `iteration` by exactly 1;
and each pass hands `should_retry` the post-increment state. -/
theorem C2_loop_bounded (o : Oracles) (s : RAGAgentState) (h0 : s.iteration = 0) :
    (runLoopFuel o MAX_ITERATIONS s).isSome ∧
    (∀ fuel t, runLoopFuel o fuel s = some (.ok t) →
      1 ≤ t.passes ∧ t.passes ≤ MAX_ITERATIONS ∧ t.final.iteration = t.passes) ∧
    (∀ ev st, (evaluate_answer ev st).iteration = st.iteration + 1) ∧
    (∀ st s1 cs, runPass o st = .ok (s1, cs) → s1.iteration = st.iteration + 1) := by
  have hM : MAX_ITERATIONS = 3 := rfl
  refine ⟨?_, ?_, ?_, ?_⟩
  · exact runLoopFuel_isSome o MAX_ITERATIONS s (by decide) (Nat.sub_le _ _)
  · intro fuel t ht
    obtain ⟨h1, h2, h3, _⟩ := runLoopFuel_ok_spec o fuel s t ht
    refine ⟨h2, ?_, by omega⟩
    rcases h3 with h | h <;> omega
  · intro ev st
    simp [evaluate_answer]
  · intro st s1 cs h
    exact (runPass_ok_fields o st s1 cs h).1

/-- Witness for C2: a run with an evaluator that always answers
`is_sufficient = false` still halts within the fuel bound. -/
theorem C2_loop_bounded_witness :
    (initial_state "Q").iteration = 0 ∧
    (runLoopFuel
      ⟨fun _ => (["q1"], "intent"), fun _ _ => "answer",
       fun _ _ => ⟨false, 0, "reason", "missing"⟩, fun _ _ => []⟩
      MAX_ITERATIONS (initial_state "Q")).isSome :=
  ⟨rfl,
   (C2_loop_bounded
      ⟨fun _ => (["q1"], "intent"), fun _ _ => "answer",
       fun _ _ => ⟨false, 0, "reason", "missing"⟩, fun _ _ => []⟩
      (initial_state "Q") rfl).1⟩

/-- C3: the retrieval node appends this call's (deduplicated) results to the
accumulated `retrieved_documents`, so the prior sequence is a prefix of the
new one and the length never shrinks; the same holds across a full pass of
the loop. -/
theorem C3_retrieved_documents_accumulate (search : String → Nat → List Document)
    (s : RAGAgentState) :
    (retrieve_documents search s).retrieved_documents =
      s.retrieved_documents ++
        dedupBy (fun d => d.page_content) (retrieveLoop search s.search_queries).1 [] ∧
    s.retrieved_documents <+: (retrieve_documents search s).retrieved_documents ∧
    s.retrieved_documents.length ≤ (retrieve_documents search s).retrieved_documents.length ∧
    (∀ (o : Oracles) (st s1 : RAGAgentState) (cs : List (String × Nat)),
      runPass o st = .ok (s1, cs) →
      st.retrieved_documents <+: s1.retrieved_documents ∧
      st.retrieved_documents.length ≤ s1.retrieved_documents.length) := by
  have heq : (retrieve_documents search s).retrieved_documents =
      s.retrieved_documents ++
        dedupBy (fun d => d.page_content) (retrieveLoop search s.search_queries).1 [] := by
    simp [retrieve_documents, retrieve_documents_traced]
  refine ⟨heq, ?_, ?_, ?_⟩
  · rw [heq]; exact List.prefix_append _ _
  · rw [heq]; simp
  · intro o st s1 cs h
    have hp := (runPass_ok_fields o st s1 cs h).2.2
    exact ⟨hp, hp.length_le⟩

/-- Witness for C3 (for the pass-level conjunct, which carries a
hypothesis): a concrete pass starting from a state that already holds one
document. -/
theorem C3_retrieved_documents_accumulate_witness :
    RAGAgentState.retrieved_documents ⟨"Q", [], [⟨"old", none, none⟩], "", false, "", 0⟩ <+:
      RAGAgentState.retrieved_documents
        (retrieve_documents (fun _ _ => [⟨"new", some "s", none⟩])
          ⟨"Q", [], [⟨"old", none, none⟩], "", false, "", 0⟩) :=
  (C3_retrieved_documents_accumulate (fun _ _ => [⟨"new", some "s", none⟩])
    ⟨"Q", [], [⟨"old", none, none⟩], "", false, "", 0⟩).2.1

/-- C4: in one retrieval call, the per-query results are concatenated in
query order (each query's internal ranking preserved) and deduplicated by
exact text equality keeping only the first occurrence: the merged result
equals the spec-side `keepFirstsBy`, is a subsequence of the concatenation
(so relative order is preserved), covers every retrieved text, and contains
no two entries with the same text. -/
theorem C4_retriever_merge_dedup (search : String → Nat → List Document)
    (s : RAGAgentState) :
    (retrieveLoop search s.search_queries).1 =
      s.search_queries.flatMap (fun q => search q 3) ∧
    (retrieve_documents search s).retrieved_documents =
      s.retrieved_documents ++
        dedupBy (fun d => d.page_content) (retrieveLoop search s.search_queries).1 [] ∧
    dedupBy (fun d => d.page_content) (retrieveLoop search s.search_queries).1 [] =
      keepFirstsBy (fun d => d.page_content) (retrieveLoop search s.search_queries).1 ∧
    (dedupBy (fun d => d.page_content) (retrieveLoop search s.search_queries).1 []).Sublist
      (retrieveLoop search s.search_queries).1 ∧
    (∀ d ∈ (retrieveLoop search s.search_queries).1,
      ∃ d2 ∈ dedupBy (fun d => d.page_content) (retrieveLoop search s.search_queries).1 [],
        d2.page_content = d.page_content) ∧
    (dedupBy (fun d => d.page_content) (retrieveLoop search s.search_queries).1 []).Pairwise
      (fun a b => a.page_content ≠ b.page_content) := by
  have hd := dedupBy_eq_keepFirstsBy (fun d => d.page_content)
    (retrieveLoop search s.search_queries).1
  refine ⟨retrieveLoop_fst_flatMap search s.search_queries,
    by simp [retrieve_documents, retrieve_documents_traced], hd, ?_, ?_, ?_⟩
  · rw [hd]; exact keepFirstsBy_sublist _ _
  · intro d hdm
    rw [hd]
    exact keepFirstsBy_covers _ _ d hdm
  · rw [hd]; exact keepFirstsBy_pairwise _ _

/-- Witness for C4: two queries both return the chunk "dup"; the merged
result keeps it once, at its first position, and a witness entry with the
same text exists for it. -/
theorem C4_retriever_merge_dedup_witness :
    ∃ d2 ∈ dedupBy (fun d => d.page_content)
        (retrieveLoop
          (fun q _ => if q = "q1" then [⟨"dup", some "a", none⟩, ⟨"x", none, none⟩]
                      else [⟨"dup", some "b", none⟩])
          (RAGAgentState.search_queries ⟨"Q", ["q1", "q2"], [], "", false, "", 0⟩)).1 [],
      d2.page_content = Document.page_content ⟨"dup", some "b", none⟩ :=
  (C4_retriever_merge_dedup
    (fun q _ => if q = "q1" then [⟨"dup", some "a", none⟩, ⟨"x", none, none⟩]
                else [⟨"dup", some "b", none⟩])
    ⟨"Q", ["q1", "q2"], [], "", false, "", 0⟩).2.2.2.2.1
    ⟨"dup", some "b", none⟩ (by decide)

/-- C5 counterexample: an evaluation that is insufficient (so the loop
retries) whose `missing_info` text does not occur anywhere in the question
sent to the Query Analyzer on the next iteration — the code feeds back
`reason` (stored as `evaluation_reason`), not `missing_info`. -/
theorem C5_missing_info_counterexample :
    should_retry
        (evaluate_answer (fun _ _ => ⟨false, 0, "REASONX", "MISSINGM"⟩)
          ⟨"Q", [], [], "A", false, "", 0⟩) = "retry" ∧
    (RAGQA.evaluate_answer (fun _ _ => ⟨false, 0, "REASONX", "MISSINGM"⟩)
        ⟨"Q", [], [], "A", false, "", 0⟩).is_sufficient = false ∧
    ¬ occursIn
        ((fun (_ : String) (_ : String) =>
            (⟨false, 0, "REASONX", "MISSINGM"⟩ : EvaluationResult)) "Q" "A").missing_info
        (analyze_query_question
          (evaluate_answer (fun _ _ => ⟨false, 0, "REASONX", "MISSINGM"⟩)
            ⟨"Q", [], [], "A", false, "", 0⟩)) := by
  refine ⟨by decide, by decide, by decide⟩

/-- C5 amended: when an evaluation comes back (with a non-empty `reason`) and
the loop retries, it is the evaluator's `reason` field — stored as
`evaluation_reason`, not `missing_info` — that is incorporated into the
question sent to the Query Analyzer on the next iteration. -/
theorem C5_amended_reason_fed_back (ev : String → String → EvaluationResult)
    (s : RAGAgentState) (hr : (ev s.query s.answer).reason ≠ "") :
    analyze_query_question (evaluate_answer ev s) =
      s.query ++ "\n\n" ++
        "前回の検索では以下が不足していました: " ++ (ev s.query s.answer).reason ++ "\n" ++
        "この不足を補う検索クエリを生成してください。" ∧
    occursIn (ev s.query s.answer).reason
      (analyze_query_question (evaluate_answer ev s)) := by
  have heq : analyze_query_question (evaluate_answer ev s) =
      s.query ++ "\n\n" ++
        "前回の検索では以下が不足していました: " ++ (ev s.query s.answer).reason ++ "\n" ++
        "この不足を補う検索クエリを生成してください。" := by
    unfold analyze_query_question
    rw [if_pos]
    · rfl
    · exact ⟨Nat.succ_pos _, hr⟩
  refine ⟨heq, ?_⟩
  rw [heq]
  unfold occursIn
  refine ⟨(s.query ++ "\n\n" ++ "前回の検索では以下が不足していました: ").data,
          ("\n" ++ "この不足を補う検索クエリを生成してください。").data, ?_⟩
  simp [String.data_append]

/-- Witness for C5's amended theorem at a concrete evaluator and state. -/
theorem C5_amended_reason_fed_back_witness :
    occursIn
      ((fun (_ : String) (_ : String) =>
          (⟨false, 0, "REASONX", "MISSINGM"⟩ : EvaluationResult)) "Q" "A").reason
      (analyze_query_question
        (evaluate_answer (fun _ _ => ⟨false, 0, "REASONX", "MISSINGM"⟩)
          ⟨"Q", [], [], "A", false, "", 0⟩)) :=
  (C5_amended_reason_fed_back (fun _ _ => ⟨false, 0, "REASONX", "MISSINGM"⟩)
    ⟨"Q", [], [], "A", false, "", 0⟩ (by decide)).2

/-- C6: the `query` field is set once at entry and never changed: every node
preserves it (the analysis step only augments the internally-built prompt),
and any successful run of the loop returns it unchanged. -/
theorem C6_query_never_mutated :
    (∀ (llm : String → List String × String) (s s1 : RAGAgentState),
      analyze_query llm s = .ok s1 → s1.query = s.query) ∧
    (∀ (search : String → Nat → List Document) (s : RAGAgentState),
      (retrieve_documents search s).query = s.query) ∧
    (∀ (gen : String → String → String) (s : RAGAgentState),
      (generate_answer gen s).query = s.query) ∧
    (∀ (ev : String → String → EvaluationResult) (s : RAGAgentState),
      (evaluate_answer ev s).query = s.query) ∧
    (∀ (o : Oracles) (fuel : Nat) (s : RAGAgentState) (t : RunTrace),
      runLoopFuel o fuel s = some (.ok t) → t.final.query = s.query) := by
  refine ⟨?_, ?_, ?_, ?_, ?_⟩
  · intro llm s s1 h
    exact (analyze_query_ok_fields llm s s1 h).1
  · intro search s
    simp [retrieve_documents, retrieve_documents_traced]
  · intro gen s
    rfl
  · intro ev s
    rfl
  · intro o fuel s t h
    exact (runLoopFuel_ok_spec o fuel s t h).2.2.2

/-- Witness for C6 at a concrete successful analysis step and a concrete
one-pass run. -/
theorem C6_query_never_mutated_witness :
    RAGAgentState.query ⟨"Q", ["a"], [], "", false, "", 0⟩ =
      RAGAgentState.query (initial_state "Q") :=
  C6_query_never_mutated.1 (fun _ => (["a"], "intent")) (initial_state "Q")
    ⟨"Q", ["a"], [], "", false, "", 0⟩ rfl

/-- C7: a structured query-analysis payload violating the schema (query count
outside 1..5) makes the node fail with a validation error that propagates
unchanged through the pass, the loop and the `query` route to the caller; a
successful node call returns exactly the model's payload as the search
queries, never a substituted default. -/
theorem C7_schema_violation_hard_failure :
    (∀ (llm : String → List String × String) (s : RAGAgentState),
      ¬ (1 ≤ (llm (analyze_query_question s)).1.length ∧
          (llm (analyze_query_question s)).1.length ≤ 5) →
      analyze_query llm s =
        .error "ValidationError: queries must have between 1 and 5 items") ∧
    (∀ (llm : String → List String × String) (s s1 : RAGAgentState),
      analyze_query llm s = .ok s1 →
      s1.search_queries = (llm (analyze_query_question s)).1) ∧
    (∀ (o : Oracles) (s : RAGAgentState) (e : String),
      analyze_query o.llm s = .error e → runPass o s = .error e) ∧
    (∀ (o : Oracles) (fuel : Nat) (s : RAGAgentState) (e : String),
      runPass o s = .error e → runLoopFuel o (fuel + 1) s = some (.error e)) ∧
    (∀ (o : Oracles) (req : QueryRequest) (e : String),
      runPass o (initial_state req.question) = .error e →
      query o req = some (.error e)) := by
  have hpass : ∀ (o : Oracles) (fuel : Nat) (s : RAGAgentState) (e : String),
      runPass o s = .error e → runLoopFuel o (fuel + 1) s = some (.error e) := by
    intro o fuel s e h
    rw [runLoopFuel, h]
  refine ⟨?_, ?_, ?_, hpass, ?_⟩
  · intro llm s h
    exact analyze_query_error_of_invalid llm s h
  · intro llm s s1 h
    exact (analyze_query_ok_fields llm s s1 h).2.2.2.2.2.2
  · intro o s e h
    unfold runPass
    rw [h]
  · intro o req e h
    have h3 : runLoopFuel o MAX_ITERATIONS (initial_state req.question) =
        some (.error e) := hpass o 2 (initial_state req.question) e h
    unfold query
    rw [h3]

/-- Witness for C7: a model payload with zero queries is rejected with the
validation error (not replaced by the raw question). -/
theorem C7_schema_violation_hard_failure_witness :
    analyze_query (fun _ => ([], "intent")) (initial_state "Q") =
      .error "ValidationError: queries must have between 1 and 5 items" :=
  C7_schema_violation_hard_failure.1 (fun _ => ([], "intent")) (initial_state "Q")
    (by decide)

/-- C8: the response's sources list is deduplicated by the source identifier
(not by chunk content), keeping first-seen order over the accumulated
documents; each content field is cut to 200 code points plus an ellipsis
marker exactly when the chunk text is longer than 200, and returned unchanged
otherwise; and the `query` route's response is assembled with exactly this
list. -/
theorem C8_sources_dedup_truncate (docs : List Document) :
    build_sources docs [] =
      (keepFirstsBy (fun d => d.metaSource.getD "不明") docs).map mkSourceDocument ∧
    (∀ s : String, 200 < pyLen s → truncate_content s = pySlice s 200 ++ "...") ∧
    (∀ s : String, pyLen s ≤ 200 → truncate_content s = s) ∧
    (∀ (o : Oracles) (req : QueryRequest) (t : RunTrace),
      runLoopFuel o MAX_ITERATIONS (initial_state req.question) = some (.ok t) →
      query o req = some (.ok ⟨t.final.answer,
        build_sources t.final.retrieved_documents [],
        t.final.is_sufficient, t.final.iteration⟩)) := by
  refine ⟨?_, ?_, ?_, ?_⟩
  · rw [build_sources_eq_map, dedupBy_eq_keepFirstsBy]
  · intro s h
    unfold truncate_content
    rw [if_pos h]
  · intro s h
    unfold truncate_content
    rw [if_neg (by omega)]
  · intro o req t h
    unfold query
    rw [h]

set_option maxRecDepth 4000 in
/-- Witness for C8: a 201-character text is truncated with the ellipsis
marker, a short one is returned unmodified. -/
theorem C8_sources_dedup_truncate_witness :
    truncate_content (String.mk (List.replicate 201 'a')) =
      pySlice (String.mk (List.replicate 201 'a')) 200 ++ "..." ∧
    truncate_content "short" = "short" :=
  ⟨(C8_sources_dedup_truncate []).2.1 (String.mk (List.replicate 201 'a'))
      (by simp [pyLen]),
   (C8_sources_dedup_truncate []).2.2.1 "short" (by decide)⟩

/-- C9: an upload whose filename extension (case-insensitive) is not one of
.pdf/.md/.txt is rejected with HTTP 400 and no load/chunk/embed effect runs;
an accepted upload answers with the number of chunks produced (and all three
ingestion effects run). -/
theorem C9_upload_extension_gate (load_pdf load_markdown : String → List Document)
    (split_documents : List Document → List Document)
    (filename : Option String) (content : String) :
    (allowed_suffixes.contains (pyLower (pathSuffix (filename.getD ""))) = false →
      (upload_document load_pdf load_markdown split_documents filename content).2 = [] ∧
      ∃ e, (upload_document load_pdf load_markdown split_documents filename content).1 =
          .error e ∧ e.status_code = 400) ∧
    (allowed_suffixes.contains (pyLower (pathSuffix (filename.getD ""))) = true →
      (upload_document load_pdf load_markdown split_documents filename content).1 =
        .ok ⟨(match filename with | some n => n | none => "None") ++ " を正常に処理しました",
             (split_documents
               (if pyLower (pathSuffix (filename.getD "")) = ".pdf" then load_pdf content
                else load_markdown content)).length⟩ ∧
      (upload_document load_pdf load_markdown split_documents filename content).2 =
        [.load, .chunk, .embed]) := by
  constructor
  · intro h
    have hm : pyLower (pathSuffix (filename.getD "")) ∉ allowed_suffixes := by
      simpa using h
    refine ⟨?_, ⟨400,
      "未対応のファイル形式: " ++ pyLower (pathSuffix (filename.getD "")) ++
        "。PDF, Markdown, テキストに対応しています。"⟩, ?_, rfl⟩ <;>
      simp [upload_document, hm]
  · intro h
    have hm : pyLower (pathSuffix (filename.getD "")) ∈ allowed_suffixes := by
      simpa using h
    constructor <;> simp [upload_document, hm]

/-- Witness for C9: `report.docx` is rejected with no ingestion effect, and
`notes.MD` (case-insensitive match) is accepted with the chunk count. -/
theorem C9_upload_extension_gate_witness :
    (upload_document (fun _ => []) (fun _ => [⟨"c", some "notes.MD", none⟩])
        (fun l => l) (some "report.docx") "bytes").2 = [] ∧
    (upload_document (fun _ => []) (fun _ => [⟨"c", some "notes.MD", none⟩])
        (fun l => l) (some "notes.MD") "bytes").2 = [.load, .chunk, .embed] :=
  ⟨((C9_upload_extension_gate (fun _ => []) (fun _ => [⟨"c", some "notes.MD", none⟩])
      (fun l => l) (some "report.docx") "bytes").1 (by decide)).1,
   ((C9_upload_extension_gate (fun _ => []) (fun _ => [⟨"c", some "notes.MD", none⟩])
      (fun l => l) (some "notes.MD") "bytes").2 (by decide)).2⟩

/-- C10: the request's `top_k` has no effect: two requests with the same
question (whatever their `top_k`) produce the same response and the same
sequence of search calls, and every search call of a run is issued with
`k = 3`. -/
theorem C10_top_k_no_effect (o : Oracles) (r1 r2 : QueryRequest)
    (h : r1.question = r2.question) :
    query o r1 = query o r2 ∧
    run_search_calls o r1 = run_search_calls o r2 ∧
    (∀ t, runLoopFuel o MAX_ITERATIONS (initial_state r1.question) = some (.ok t) →
      ∀ c ∈ t.calls, c.2 = 3) := by
  refine ⟨?_, ?_, ?_⟩
  · unfold query
    rw [h]
  · unfold run_search_calls
    rw [h]
  · intro t ht c hc
    exact runLoopFuel_ok_calls o MAX_ITERATIONS (initial_state r1.question) t ht c hc

/-- Witness for C10: two requests differing only in `top_k` (1 vs 20) get the
same response and issue the same search calls. -/
theorem C10_top_k_no_effect_witness :
    query
        ⟨fun _ => (["q1"], "intent"), fun _ _ => "answer", fun _ _ => ⟨true, 1, "ok", ""⟩,
         fun _ _ => []⟩ ⟨"Q", 1⟩ =
      query
        ⟨fun _ => (["q1"], "intent"), fun _ _ => "answer", fun _ _ => ⟨true, 1, "ok", ""⟩,
         fun _ _ => []⟩ ⟨"Q", 20⟩ :=
  (C10_top_k_no_effect
    ⟨fun _ => (["q1"], "intent"), fun _ _ => "answer", fun _ _ => ⟨true, 1, "ok", ""⟩,
     fun _ _ => []⟩ ⟨"Q", 1⟩ ⟨"Q", 20⟩ rfl).1

end RAGQA
